import Mathlib

/-!
Verification of the lifecycle logic of the ILI9488 DSI panel driver
(src/panel-ilitek-ili9488.c).

The driver's effectful environment (regulator, reset GPIO, DSI command
transport, delays) is modelled by an explicit event trace plus an oracle
environment that supplies the result of each fallible external call in
order.  The driver's own functions are translated from the C source;
the host-framework helpers the driver calls (regulator, GPIO and the
`mipi_dsi_*_multi` batched-write helpers) are not part of this
repository's source and are modelled from the spec's description of the
Command Transport and power resources.
-/

/-- One observable external action of the driver, in the order it is issued.
Fallible actions record the result code the environment returned for them
(0 is success, negative values are error codes, as in the kernel). -/
inductive Event where
  | regEnable (supply : Nat) (res : Int)
  | regDisable (supply : Nat) (res : Int)
  | resetSet (line : Nat) (value : Nat)
  | usleepRange (lo hi : Nat)
  | dcsWrite (cmd : Nat) (params : List Nat) (res : Int)
  | msleepEvt (ms : Nat)
  | devErr
deriving DecidableEq, Repr

/-- Oracle: the results that successive regulator-enable, regulator-disable
and transport-write calls will receive.  A call beyond the end of its list
receives 0 (success). -/
structure Env where
  enableResults : List Int
  disableResults : List Int
  writeResults : List Int
deriving DecidableEq, Repr

/-- External-world state threaded through every operation: the remaining
oracle plus the trace of events issued so far. -/
structure World where
  env : Env
  trace : List Event
deriving DecidableEq, Repr

/-- Head of an oracle list, defaulting to 0 (success). -/
def headOr0 : List Int → Int
  | [] => 0
  | r :: _ => r

/-- Append one event to the world's trace. -/
def emit (e : Event) (w : World) : World :=
  { w with trace := w.trace ++ [e] }

/-- Modelled from the spec (power resource interfaces; the regulator
implementation is host-framework code, not in src/): enabling the supply
consumes the next enable result from the oracle and is recorded. -/
def regulator_enable (supply : Nat) (w : World) : Int × World :=
  let r := headOr0 w.env.enableResults
  let w := { w with env := { w.env with enableResults := w.env.enableResults.tail } }
  (r, emit (Event.regEnable supply r) w)

/-- Modelled from the spec (power resource interfaces): disabling the supply
consumes the next disable result from the oracle and is recorded. -/
def regulator_disable (supply : Nat) (w : World) : Int × World :=
  let r := headOr0 w.env.disableResults
  let w := { w with env := { w.env with disableResults := w.env.disableResults.tail } }
  (r, emit (Event.regDisable supply r) w)

/-- Modelled from the spec (power resource interfaces): setting the reset
GPIO always succeeds and is recorded. -/
def gpiod_set_value_cansleep (line value : Nat) (w : World) : World :=
  emit (Event.resetSet line value) w

/-- Modelled from the spec (randomized-within-range delay): a delay window
with the given minimum and maximum bounds in microseconds is recorded. -/
def usleep_range (lo hi : Nat) (w : World) : World :=
  emit (Event.usleepRange lo hi) w

/-- The batched-write context, mirroring `struct mipi_dsi_multi_context`:
the transport handle and the sticky accumulated error slot. -/
structure MultiContext where
  dsi : Nat
  accum_err : Int
deriving DecidableEq, Repr

/-- Modelled from the spec (Command Transport / Command Batch; the
`mipi_dsi_dcs_write_*_multi` helpers are host-framework code, not in src/):
the write is issued to the bus unconditionally, its failure (a negative
result) is recorded in the batch only when the batch holds no earlier
failure, so the batch keeps the first recorded failure. -/
def mipi_dsi_dcs_write_seq_multi (ctx : MultiContext) (cmd : Nat)
    (params : List Nat) (w : World) : MultiContext × World :=
  let r := headOr0 w.env.writeResults
  let w := { w with env := { w.env with writeResults := w.env.writeResults.tail } }
  let w := emit (Event.dcsWrite cmd params r) w
  ({ ctx with accum_err := if ctx.accum_err ≠ 0 then ctx.accum_err
                           else if r < 0 then r else 0 }, w)

/-- Modelled from the spec: the DCS exit-sleep-mode command (0x11), issued
through the batch. -/
def mipi_dsi_dcs_exit_sleep_mode_multi (ctx : MultiContext) (w : World) :
    MultiContext × World :=
  mipi_dsi_dcs_write_seq_multi ctx 0x11 [] w

/-- Modelled from the spec: the DCS enter-sleep-mode command (0x10), issued
through the batch. -/
def mipi_dsi_dcs_enter_sleep_mode_multi (ctx : MultiContext) (w : World) :
    MultiContext × World :=
  mipi_dsi_dcs_write_seq_multi ctx 0x10 [] w

/-- Modelled from the spec: the DCS display-on command (0x29), issued
through the batch. -/
def mipi_dsi_dcs_set_display_on_multi (ctx : MultiContext) (w : World) :
    MultiContext × World :=
  mipi_dsi_dcs_write_seq_multi ctx 0x29 [] w

/-- Modelled from the spec: the DCS display-off command (0x28), issued
through the batch. -/
def mipi_dsi_dcs_set_display_off_multi (ctx : MultiContext) (w : World) :
    MultiContext × World :=
  mipi_dsi_dcs_write_seq_multi ctx 0x28 [] w

/-- Modelled from the spec: the batch-scoped wait of at least the given
number of milliseconds, recorded in the trace. -/
def mipi_dsi_msleep (ctx : MultiContext) (ms : Nat) (w : World) :
    MultiContext × World :=
  (ctx, emit (Event.msleepEvt ms) w)

/-- `struct drm_display_mode`: the fields the driver's static mode uses. -/
structure DrmDisplayMode where
  clock : Nat
  hdisplay : Nat
  hsync_start : Nat
  hsync_end : Nat
  htotal : Nat
  vdisplay : Nat
  vsync_start : Nat
  vsync_end : Nat
  vtotal : Nat
  width_mm : Nat
  height_mm : Nat
  flags : Nat
  mode_type : Nat
deriving DecidableEq, Repr

def DRM_MODE_FLAG_NHSYNC : Nat := 2
def DRM_MODE_FLAG_NVSYNC : Nat := 8
def DRM_MODE_TYPE_DRIVER : Nat := 64
def DRM_MODE_TYPE_PREFERRED : Nat := 8
def MIPI_DSI_MODE_VIDEO : Nat := 1
def MIPI_DSI_MODE_VIDEO_SYNC_PULSE : Nat := 4
def MIPI_DSI_CLOCK_NON_CONTINUOUS : Nat := 1024
def MIPI_DSI_MODE_LPM : Nat := 2048
def MIPI_DSI_FMT_RGB666_PACKED : Nat := 2

/-- `struct ili9488_desc`: the immutable per-model descriptor. -/
structure IliDesc where
  display_mode : DrmDisplayMode
  mode_flags : Nat
  format : Nat
  lanes : Nat
  init_sequence : Option (MultiContext → World → MultiContext × World)

/-- `struct ili9488`: the per-device panel instance. -/
structure Ili9488 where
  dsi : Nat
  reset : Nat
  power : Nat
  desc : IliDesc
  orientation : Nat

/-- `e35gh_i_mw800cb_init`: the model's fixed init sequence, write for
write from the source. -/
def e35gh_i_mw800cb_init (ctx : MultiContext) (w : World) :
    MultiContext × World :=
  let (ctx, w) := mipi_dsi_dcs_write_seq_multi ctx 0xE0
    [0x00, 0x10, 0x14, 0x01, 0x0E, 0x04, 0x33, 0x56, 0x48, 0x03, 0x0C, 0x0B,
     0x2B, 0x34, 0x0F] w
  let (ctx, w) := mipi_dsi_dcs_write_seq_multi ctx 0xE1
    [0x00, 0x12, 0x18, 0x05, 0x12, 0x06, 0x40, 0x34, 0x57, 0x06, 0x10, 0x0C,
     0x3B, 0x3F, 0x0F] w
  let (ctx, w) := mipi_dsi_dcs_write_seq_multi ctx 0xC0 [0x0F, 0x0C] w
  let (ctx, w) := mipi_dsi_dcs_write_seq_multi ctx 0xC1 [0x41] w
  let (ctx, w) := mipi_dsi_dcs_write_seq_multi ctx 0xC5 [0x00, 0x25, 0x80] w
  let (ctx, w) := mipi_dsi_dcs_write_seq_multi ctx 0x36 [0x48] w
  let (ctx, w) := mipi_dsi_dcs_write_seq_multi ctx 0x3A [0x66] w
  let (ctx, w) := mipi_dsi_dcs_write_seq_multi ctx 0xB0 [0x00] w
  let (ctx, w) := mipi_dsi_dcs_write_seq_multi ctx 0xB1 [0xA0] w
  let (ctx, w) := mipi_dsi_dcs_write_seq_multi ctx 0xB4 [0x02] w
  let (ctx, w) := mipi_dsi_dcs_write_seq_multi ctx 0xB6 [0x02, 0x02, 0x3B] w
  let (ctx, w) := mipi_dsi_dcs_write_seq_multi ctx 0xE9 [0x00] w
  let (ctx, w) := mipi_dsi_dcs_write_seq_multi ctx 0xF7 [0xA9, 0x51, 0x2C, 0x82] w
  let (ctx, w) := mipi_dsi_dcs_write_seq_multi ctx 0x21 [0x00] w
  (ctx, w)

/-- `e35gh_i_mw800cb_display_mode`: the model's static timing mode. -/
def e35gh_i_mw800cb_display_mode : DrmDisplayMode where
  clock := 14256
  hdisplay := 320
  hsync_start := 320 + 60
  hsync_end := 320 + 60 + 20
  htotal := 320 + 60 + 20 + 40
  vdisplay := 480
  vsync_start := 480 + 20
  vsync_end := 480 + 20 + 10
  vtotal := 480 + 20 + 10 + 30
  width_mm := 48
  height_mm := 73
  flags := Nat.lor DRM_MODE_FLAG_NHSYNC DRM_MODE_FLAG_NVSYNC
  mode_type := Nat.lor DRM_MODE_TYPE_DRIVER DRM_MODE_TYPE_PREFERRED

/-- `e35gh_i_mw800cb_desc`: the one registered model descriptor. -/
def e35gh_i_mw800cb_desc : IliDesc where
  display_mode := e35gh_i_mw800cb_display_mode
  mode_flags :=
    Nat.lor (Nat.lor MIPI_DSI_MODE_VIDEO MIPI_DSI_MODE_VIDEO_SYNC_PULSE)
      (Nat.lor MIPI_DSI_MODE_LPM MIPI_DSI_CLOCK_NON_CONTINUOUS)
  format := MIPI_DSI_FMT_RGB666_PACKED
  lanes := 1
  init_sequence := some e35gh_i_mw800cb_init

/-- `ili9488_power_on`, translated from the source: enable the regulator,
bail out on a negative result (logging), otherwise drive the reset pulse
with its three timed holds and return 0. -/
def ili9488_power_on (ili : Ili9488) (w : World) : Int × World :=
  let (ret, w) := regulator_enable ili.power w
  if ret < 0 then
    (ret, emit Event.devErr w)
  else
    let w := gpiod_set_value_cansleep ili.reset 0 w
    let w := usleep_range 1000 5000 w
    let w := gpiod_set_value_cansleep ili.reset 1 w
    let w := usleep_range 1000 5000 w
    let w := gpiod_set_value_cansleep ili.reset 0 w
    let w := usleep_range 5000 10000 w
    (0, w)

/-- `ili9488_power_off`, translated from the source: assert reset
unconditionally, disable the regulator, log on failure, return the
regulator's result. -/
def ili9488_power_off (ili : Ili9488) (w : World) : Int × World :=
  let w := gpiod_set_value_cansleep ili.reset 1 w
  let (ret, w) := regulator_disable ili.power w
  let w := if ret ≠ 0 then emit Event.devErr w else w
  (ret, w)

/-- `ili9488_activate`, translated from the source: open a fresh batch, run
the model init sequence when present, exit sleep, wait 120 ms, display on,
and return the batch's accumulated error. -/
def ili9488_activate (ili : Ili9488) (w : World) : Int × World :=
  let ctx : MultiContext := { dsi := ili.dsi, accum_err := 0 }
  let (ctx, w) :=
    match ili.desc.init_sequence with
    | some f => f ctx w
    | none => (ctx, w)
  let (ctx, w) := mipi_dsi_dcs_exit_sleep_mode_multi ctx w
  let (ctx, w) := mipi_dsi_msleep ctx 120 w
  let (ctx, w) := mipi_dsi_dcs_set_display_on_multi ctx w
  (ctx.accum_err, w)

/-- `ili9488_deactivate`, translated from the source: open a fresh batch,
display off, enter sleep, wait 120 ms, return the batch's accumulated
error. -/
def ili9488_deactivate (ili : Ili9488) (w : World) : Int × World :=
  let ctx : MultiContext := { dsi := ili.dsi, accum_err := 0 }
  let (ctx, w) := mipi_dsi_dcs_set_display_off_multi ctx w
  let (ctx, w) := mipi_dsi_dcs_enter_sleep_mode_multi ctx w
  let (ctx, w) := mipi_dsi_msleep ctx 120 w
  (ctx.accum_err, w)

/-- `ili9488_prepare`, translated from the source.  The returned instance is
the content of the `struct ili9488` after the call. -/
def ili9488_prepare (ili : Ili9488) (w : World) : Int × Ili9488 × World :=
  let (ret, w) := ili9488_power_on ili w
  if ret ≠ 0 then
    (ret, ili, w)
  else
    let (ret, w) := ili9488_activate ili w
    if ret ≠ 0 then
      let (_, w) := ili9488_power_off ili w
      (ret, ili, w)
    else
      (0, ili, w)

/-- `ili9488_unprepare`, translated from the source: deactivate with the
result discarded, power off, log a negative power-off result, return it. -/
def ili9488_unprepare (ili : Ili9488) (w : World) : Int × Ili9488 × World :=
  let (_, w) := ili9488_deactivate ili w
  let (ret, w) := ili9488_power_off ili w
  let w := if ret < 0 then emit Event.devErr w else w
  (ret, ili, w)

/-- `ili9488_get_modes`: the helper `drm_connector_helper_get_modes_fixed`
is host-framework code, modelled from the spec as exposing exactly the one
fixed mode of the selected descriptor. -/
def ili9488_get_modes (ili : Ili9488) : DrmDisplayMode :=
  ili.desc.display_mode

/-- `ili9488_get_orientation`, translated from the source. -/
def ili9488_get_orientation (ili : Ili9488) : Nat :=
  ili.orientation

/-- Modelled from the spec: the Lifecycle Controller's two public states. -/
inductive PanelState where
  | Unprepared
  | Prepared
deriving DecidableEq, Repr

/-- Modelled from the spec: after `prepare` the instance is Prepared exactly
when the call returned success, otherwise it remains Unprepared. -/
def stateAfterPrepare (ret : Int) : PanelState :=
  if ret = 0 then PanelState.Prepared else PanelState.Unprepared

/-- Modelled from the spec: after `unprepare` the instance is considered
Unprepared whatever the power-off result was. -/
def stateAfterUnprepare : PanelState :=
  PanelState.Unprepared

/-- First negative entry of a result list, or 0 when none: the value the
sticky error slot of a batch holds after consuming those results. -/
def firstFailure : List Int → Int
  | [] => 0
  | r :: rs => if r < 0 then r else firstFailure rs

/-- A straight-line batch of DCS writes, given as command/payload pairs. -/
def runBatch : List (Nat × List Nat) → MultiContext → World → MultiContext × World
  | [], ctx, w => (ctx, w)
  | op :: rest, ctx, w =>
    let (ctx, w) := mipi_dsi_dcs_write_seq_multi ctx op.1 op.2 w
    runBatch rest ctx w

/-- The events a straight-line batch of writes emits, given the pending
write results. -/
def zipEvents : List (Nat × List Nat) → List Int → List Event
  | [], _ => []
  | op :: rest, l => Event.dcsWrite op.1 op.2 (headOr0 l) :: zipEvents rest l.tail

/-- A batch-visible operation: a command write or an in-batch wait. -/
inductive BatchOp where
  | write (cmd : Nat) (params : List Nat)
  | sleep (ms : Nat)
deriving DecidableEq, Repr

/-- Project a trace event to its batch-visible operation, dropping the
environment-chosen result. -/
def opProj : Event → Option BatchOp
  | Event.dcsWrite c ps _ => some (BatchOp.write c ps)
  | Event.msleepEvt m => some (BatchOp.sleep m)
  | _ => none

def isRegDisable : Event → Bool
  | Event.regDisable _ _ => true
  | _ => false

def isSuccEnable : Event → Bool
  | Event.regEnable _ r => if r < 0 then false else true
  | _ => false

def isResetSet : Event → Bool
  | Event.resetSet _ _ => true
  | _ => false

def isDcsWrite : Event → Bool
  | Event.dcsWrite _ _ _ => true
  | _ => false

/-- Number of regulator-disable calls recorded in a trace. -/
def countDisables (t : List Event) : Nat := t.countP isRegDisable

/-- Number of successful regulator-enable calls recorded in a trace. -/
def countSuccEnables (t : List Event) : Nat := t.countP isSuccEnable

/-- Number of reset-line set-value calls recorded in a trace. -/
def countResets (t : List Event) : Nat := t.countP isResetSet

/-- Number of transport command writes recorded in a trace. -/
def countWrites (t : List Event) : Nat := t.countP isDcsWrite

lemma headOr0_eq (l : List Int) : headOr0 l = l.headI := by
  cases l <;> rfl

lemma runBatch_eq (ops : List (Nat × List Nat)) (ctx : MultiContext) (w : World) :
    runBatch ops ctx w =
      ({ ctx with accum_err :=
            if ctx.accum_err ≠ 0 then ctx.accum_err
            else firstFailure (w.env.writeResults.take ops.length) },
       { env := { w.env with writeResults := w.env.writeResults.drop ops.length },
         trace := w.trace ++ zipEvents ops w.env.writeResults }) := by
  obtain ⟨⟨e1, e2, e3⟩, tr⟩ := w
  obtain ⟨d, a⟩ := ctx
  induction ops generalizing a e3 tr with
  | nil =>
    by_cases h : a = 0 <;> simp [runBatch, firstFailure, zipEvents, h]
  | cons op rest ih =>
    simp only [runBatch, mipi_dsi_dcs_write_seq_multi, emit, List.length_cons]
    cases e3 with
    | nil =>
      simp only [headOr0, List.tail_nil, ih]
      by_cases h : a = 0 <;> simp [headOr0, firstFailure, zipEvents, h]
    | cons r rs =>
      simp only [headOr0, List.tail_cons, ih, List.take_succ_cons,
        List.drop_succ_cons, firstFailure, zipEvents]
      by_cases h : a = 0
      · by_cases hr : r < 0
        · have hne : r ≠ 0 := by omega
          simp [h, hr, hne, headOr0]
        · simp [h, hr, headOr0]
      · simp [h, headOr0]

lemma tail_drop_int (l : List Int) (n : Nat) :
    (l.drop n).tail = l.drop (n + 1) := by
  induction n generalizing l with
  | zero => cases l <;> simp
  | succ n ih =>
    cases l with
    | nil => simp
    | cons r rs => simp [ih rs]

lemma firstFailure_snoc (n : Nat) (l : List Int) :
    (if firstFailure (l.take n) ≠ 0 then firstFailure (l.take n)
     else if headOr0 (l.drop n) < 0 then headOr0 (l.drop n) else 0)
    = firstFailure (l.take (n + 1)) := by
  induction n generalizing l with
  | zero =>
    cases l with
    | nil => simp [firstFailure, headOr0]
    | cons r rs =>
      by_cases hr : r < 0
      · have hne : r ≠ 0 := by omega
        simp [firstFailure, headOr0, hr, hne]
      · simp [firstFailure, headOr0, hr]
  | succ n ih =>
    cases l with
    | nil => simp [firstFailure, headOr0]
    | cons r rs =>
      by_cases hr : r < 0
      · have hne : r ≠ 0 := by omega
        simp [firstFailure, headOr0, hr, hne, List.take_succ_cons,
          List.drop_succ_cons]
      · simp only [List.take_succ_cons, List.drop_succ_cons, firstFailure,
          hr, if_false, ih]

/-- The init sequence of the registered model as a list of
command/payload pairs, in source order. -/
def e35ghInitOps : List (Nat × List Nat) :=
  [(0xE0, [0x00, 0x10, 0x14, 0x01, 0x0E, 0x04, 0x33, 0x56, 0x48, 0x03, 0x0C,
           0x0B, 0x2B, 0x34, 0x0F]),
   (0xE1, [0x00, 0x12, 0x18, 0x05, 0x12, 0x06, 0x40, 0x34, 0x57, 0x06, 0x10,
           0x0C, 0x3B, 0x3F, 0x0F]),
   (0xC0, [0x0F, 0x0C]),
   (0xC1, [0x41]),
   (0xC5, [0x00, 0x25, 0x80]),
   (0x36, [0x48]),
   (0x3A, [0x66]),
   (0xB0, [0x00]),
   (0xB1, [0xA0]),
   (0xB4, [0x02]),
   (0xB6, [0x02, 0x02, 0x3B]),
   (0xE9, [0x00]),
   (0xF7, [0xA9, 0x51, 0x2C, 0x82]),
   (0x21, [0x00])]

lemma init_eq (ctx : MultiContext) (w : World) :
    e35gh_i_mw800cb_init ctx w = runBatch e35ghInitOps ctx w := rfl

lemma write_after (ctx : MultiContext) (c : Nat) (ps : List Nat)
    (e1 e2 l : List Int) (n : Nat) (tr : List Event) :
    mipi_dsi_dcs_write_seq_multi ctx c ps
      { env := { enableResults := e1, disableResults := e2,
                 writeResults := l.drop n }, trace := tr } =
      ({ ctx with accum_err :=
            if ctx.accum_err ≠ 0 then ctx.accum_err
            else if headOr0 (l.drop n) < 0 then headOr0 (l.drop n) else 0 },
       { env := { enableResults := e1, disableResults := e2,
                  writeResults := l.drop (n + 1) },
         trace := tr ++ [Event.dcsWrite c ps (headOr0 (l.drop n))] }) := by
  simp [mipi_dsi_dcs_write_seq_multi, emit, tail_drop_int]

lemma activate_eq (ili : Ili9488) (w : World)
    (h : ili.desc.init_sequence = some e35gh_i_mw800cb_init) :
    ili9488_activate ili w =
      (firstFailure (w.env.writeResults.take 16),
       { env := { w.env with writeResults := w.env.writeResults.drop 16 },
         trace := w.trace ++ zipEvents e35ghInitOps w.env.writeResults ++
           [Event.dcsWrite 0x11 [] (headOr0 (w.env.writeResults.drop 14)),
            Event.msleepEvt 120,
            Event.dcsWrite 0x29 [] (headOr0 (w.env.writeResults.drop 15))] }) := by
  obtain ⟨⟨e1, e2, e3⟩, tr⟩ := w
  have h14 : e35ghInitOps.length = 14 := rfl
  simp only [ili9488_activate, h, init_eq, runBatch_eq, h14,
    mipi_dsi_dcs_exit_sleep_mode_multi, mipi_dsi_dcs_set_display_on_multi,
    mipi_dsi_msleep, emit]
  rw [write_after]
  dsimp only
  rw [write_after]
  dsimp only
  norm_num
  have h1 := firstFailure_snoc 14 e3
  have h2 := firstFailure_snoc 15 e3
  norm_num at h1 h2
  rw [h1, h2]

lemma activate_none_eq (ili : Ili9488) (w : World)
    (h : ili.desc.init_sequence = none) :
    ili9488_activate ili w =
      (firstFailure (w.env.writeResults.take 2),
       { env := { w.env with writeResults := w.env.writeResults.drop 2 },
         trace := w.trace ++
           [Event.dcsWrite 0x11 [] (headOr0 w.env.writeResults),
            Event.msleepEvt 120,
            Event.dcsWrite 0x29 [] (headOr0 (w.env.writeResults.drop 1))] }) := by
  obtain ⟨⟨e1, e2, e3⟩, tr⟩ := w
  simp only [ili9488_activate, h, mipi_dsi_dcs_exit_sleep_mode_multi,
    mipi_dsi_dcs_set_display_on_multi, mipi_dsi_msleep,
    mipi_dsi_dcs_write_seq_multi, emit]
  cases e3 with
  | nil => norm_num [headOr0, firstFailure]
  | cons r rs =>
    cases rs with
    | nil =>
      by_cases hr : r < 0
      · have hne : r ≠ 0 := by omega
        norm_num [headOr0, firstFailure, hr, hne]
      · norm_num [headOr0, firstFailure, hr]
    | cons s ss =>
      by_cases hr : r < 0
      · have hne : r ≠ 0 := by omega
        norm_num [headOr0, firstFailure, hr, hne]
      · by_cases hs : s < 0
        · have hne : s ≠ 0 := by omega
          norm_num [headOr0, firstFailure, hr, hs, hne]
        · norm_num [headOr0, firstFailure, hr, hs]

lemma deactivate_eq (ili : Ili9488) (w : World) :
    ili9488_deactivate ili w =
      (firstFailure (w.env.writeResults.take 2),
       { env := { w.env with writeResults := w.env.writeResults.drop 2 },
         trace := w.trace ++
           [Event.dcsWrite 0x28 [] (headOr0 w.env.writeResults),
            Event.dcsWrite 0x10 [] (headOr0 (w.env.writeResults.drop 1)),
            Event.msleepEvt 120] }) := by
  obtain ⟨⟨e1, e2, e3⟩, tr⟩ := w
  simp only [ili9488_deactivate, mipi_dsi_dcs_set_display_off_multi,
    mipi_dsi_dcs_enter_sleep_mode_multi, mipi_dsi_msleep,
    mipi_dsi_dcs_write_seq_multi, emit]
  cases e3 with
  | nil => norm_num [headOr0, firstFailure]
  | cons r rs =>
    cases rs with
    | nil =>
      by_cases hr : r < 0
      · have hne : r ≠ 0 := by omega
        norm_num [headOr0, firstFailure, hr, hne]
      · norm_num [headOr0, firstFailure, hr]
    | cons s ss =>
      by_cases hr : r < 0
      · have hne : r ≠ 0 := by omega
        norm_num [headOr0, firstFailure, hr, hne]
      · by_cases hs : s < 0
        · have hne : s ≠ 0 := by omega
          norm_num [headOr0, firstFailure, hr, hs, hne]
        · norm_num [headOr0, firstFailure, hr, hs]

lemma power_on_fail (ili : Ili9488) (w : World)
    (h : headOr0 w.env.enableResults < 0) :
    ili9488_power_on ili w =
      (headOr0 w.env.enableResults,
       { env := { w.env with enableResults := w.env.enableResults.tail },
         trace := w.trace ++
           [Event.regEnable ili.power (headOr0 w.env.enableResults),
            Event.devErr] }) := by
  obtain ⟨⟨e1, e2, e3⟩, tr⟩ := w
  simp only [ili9488_power_on, regulator_enable, emit] at h ⊢
  simp [h]

lemma power_on_ok (ili : Ili9488) (w : World)
    (h : ¬ headOr0 w.env.enableResults < 0) :
    ili9488_power_on ili w =
      (0,
       { env := { w.env with enableResults := w.env.enableResults.tail },
         trace := w.trace ++
           [Event.regEnable ili.power (headOr0 w.env.enableResults),
            Event.resetSet ili.reset 0, Event.usleepRange 1000 5000,
            Event.resetSet ili.reset 1, Event.usleepRange 1000 5000,
            Event.resetSet ili.reset 0, Event.usleepRange 5000 10000] }) := by
  obtain ⟨⟨e1, e2, e3⟩, tr⟩ := w
  simp only [ili9488_power_on, regulator_enable, gpiod_set_value_cansleep,
    usleep_range, emit] at h ⊢
  simp [h]

lemma power_off_eq (ili : Ili9488) (w : World) :
    ili9488_power_off ili w =
      (headOr0 w.env.disableResults,
       { env := { w.env with disableResults := w.env.disableResults.tail },
         trace := (w.trace ++
           [Event.resetSet ili.reset 1,
            Event.regDisable ili.power (headOr0 w.env.disableResults)]) ++
           (if headOr0 w.env.disableResults ≠ 0 then [Event.devErr] else []) }) := by
  obtain ⟨⟨e1, e2, e3⟩, tr⟩ := w
  by_cases h : headOr0 e2 ≠ 0 <;>
    simp [ili9488_power_off, regulator_disable, gpiod_set_value_cansleep,
      emit, h]

lemma countP_zipEvents_write (ops : List (Nat × List Nat)) (l : List Int) :
    (zipEvents ops l).countP isDcsWrite = ops.length := by
  induction ops generalizing l with
  | nil => simp [zipEvents]
  | cons op rest ih => simp [zipEvents, isDcsWrite, ih]

lemma countP_zipEvents_zero (p : Event → Bool)
    (hp : ∀ c ps r, p (Event.dcsWrite c ps r) = false)
    (ops : List (Nat × List Nat)) (l : List Int) :
    (zipEvents ops l).countP p = 0 := by
  induction ops generalizing l with
  | nil => simp [zipEvents]
  | cons op rest ih => simp [zipEvents, hp, ih]

lemma filterMap_zipEvents (ops : List (Nat × List Nat)) (l : List Int) :
    (zipEvents ops l).filterMap opProj =
      ops.map (fun op => BatchOp.write op.1 op.2) := by
  induction ops generalizing l with
  | nil => simp [zipEvents]
  | cons op rest ih => simp [zipEvents, opProj, ih]

lemma prepare_inst (ili : Ili9488) (w : World) :
    (ili9488_prepare ili w).2.1 = ili := by
  rcases hpo : ili9488_power_on ili w with ⟨ret, w1⟩
  rcases hac : ili9488_activate ili w1 with ⟨ret2, w2⟩
  rcases hpf : ili9488_power_off ili w2 with ⟨ret3, w3⟩
  simp only [ili9488_prepare, hpo, hac, hpf]
  split_ifs <;> rfl

lemma unprepare_inst (ili : Ili9488) (w : World) :
    (ili9488_unprepare ili w).2.1 = ili := by
  rcases hde : ili9488_deactivate ili w with ⟨ret0, w1⟩
  rcases hpf : ili9488_power_off ili w1 with ⟨ret, w2⟩
  simp only [ili9488_unprepare, hde, hpf]

lemma countP_single_false (p : Event → Bool) (c : Prop) [Decidable c]
    (hp : p Event.devErr = false) :
    (if c then [Event.devErr] else []).countP p = 0 := by
  split_ifs <;> simp [hp]

/-- A concrete panel instance of the registered model, for witnesses. -/
def iliEx : Ili9488 where
  dsi := 0
  reset := 1
  power := 2
  desc := e35gh_i_mw800cb_desc
  orientation := 0

/-- A fresh world whose environment answers success to every call. -/
def wEx : World where
  env := { enableResults := [], disableResults := [], writeResults := [] }
  trace := []

/-- C4: whenever power_on's supply-enable step succeeds, power_on drives the
reset line through exactly three edges in order (deassert 0, assert 1,
deassert 0), separated by exactly three delay windows with bounds
1000–5000 µs, 1000–5000 µs and 5000–10000 µs (1–5 ms, 1–5 ms, 5–10 ms) in
that order, and then returns success. -/
theorem power_on_reset_pulse (ili : Ili9488) (w : World)
    (h : ¬ headOr0 w.env.enableResults < 0) :
    (ili9488_power_on ili w).1 = 0 ∧
    (ili9488_power_on ili w).2.trace =
      w.trace ++ [Event.regEnable ili.power (headOr0 w.env.enableResults),
        Event.resetSet ili.reset 0, Event.usleepRange 1000 5000,
        Event.resetSet ili.reset 1, Event.usleepRange 1000 5000,
        Event.resetSet ili.reset 0, Event.usleepRange 5000 10000] ∧
    countResets (ili9488_power_on ili w).2.trace = countResets w.trace + 3 := by
  rw [power_on_ok ili w h]
  refine ⟨rfl, rfl, ?_⟩
  simp [countResets, isResetSet, List.countP_append, List.countP_cons]

theorem power_on_reset_pulse_witness :
    (¬ headOr0 wEx.env.enableResults < 0) ∧
    ((ili9488_power_on iliEx wEx).1 = 0 ∧
     (ili9488_power_on iliEx wEx).2.trace =
       wEx.trace ++ [Event.regEnable iliEx.power (headOr0 wEx.env.enableResults),
         Event.resetSet iliEx.reset 0, Event.usleepRange 1000 5000,
         Event.resetSet iliEx.reset 1, Event.usleepRange 1000 5000,
         Event.resetSet iliEx.reset 0, Event.usleepRange 5000 10000] ∧
     countResets (ili9488_power_on iliEx wEx).2.trace = countResets wEx.trace + 3) :=
  ⟨by decide, power_on_reset_pulse iliEx wEx (by decide)⟩

/-- C3: if the supply-enable step of power_on fails, prepare returns that
supply-enable error immediately, the reset line is never toggled (no
reset-line set-value event is added during the whole prepare call) and no
command batch write is issued. -/
theorem prepare_supply_fail_no_reset (ili : Ili9488) (w : World)
    (h : headOr0 w.env.enableResults < 0) :
    (ili9488_prepare ili w).1 = headOr0 w.env.enableResults ∧
    countResets (ili9488_prepare ili w).2.2.trace = countResets w.trace ∧
    countWrites (ili9488_prepare ili w).2.2.trace = countWrites w.trace := by
  have hne : headOr0 w.env.enableResults ≠ 0 := by omega
  simp only [ili9488_prepare, power_on_fail ili w h]
  simp [hne, countResets, countWrites, isResetSet, isDcsWrite,
    List.countP_append, List.countP_cons]

/-- A world whose supply-enable call fails with -12. -/
def wEnFail : World where
  env := { enableResults := [-12], disableResults := [], writeResults := [] }
  trace := []

theorem prepare_supply_fail_no_reset_witness :
    headOr0 wEnFail.env.enableResults < 0 ∧
    ((ili9488_prepare iliEx wEnFail).1 = headOr0 wEnFail.env.enableResults ∧
     countResets (ili9488_prepare iliEx wEnFail).2.2.trace = countResets wEnFail.trace ∧
     countWrites (ili9488_prepare iliEx wEnFail).2.2.trace = countWrites wEnFail.trace) :=
  ⟨by decide, prepare_supply_fail_no_reset iliEx wEnFail (by decide)⟩

/-- C8: get_modes returns exactly the one timing mode stored in the
instance's selected Model Descriptor, and its value does not depend on the
prepare/unprepare history (the instance after prepare or unprepare yields
the same mode). -/
theorem get_modes_fixed (ili : Ili9488) (w w2 : World) :
    ili9488_get_modes ili = ili.desc.display_mode ∧
    ili9488_get_modes (ili9488_prepare ili w).2.1 = ili9488_get_modes ili ∧
    ili9488_get_modes (ili9488_unprepare ili w2).2.1 = ili9488_get_modes ili := by
  refine ⟨rfl, ?_, ?_⟩
  · rw [prepare_inst]
  · rw [unprepare_inst]

/-- C9 counterexample: for the registered model the mode returned by
get_modes has htotal = 440 (the source's 320 + 60 + 20 + 40), not 420 as
the claim states. -/
theorem get_modes_htotal_not_420 :
    (ili9488_get_modes iliEx).htotal = 440 ∧
    ¬ (ili9488_get_modes iliEx).htotal = 420 := by
  exact ⟨rfl, by decide⟩

/-- C9 (amended): for the registered model (14.256 MHz-class clock, 320×480
active area), the mode returned by get_modes has htotal = 440 and
vtotal = 540, each the sum of display size, sync-start offset, sync-end
offset and blank offset. -/
theorem get_modes_totals (ili : Ili9488)
    (h : ili.desc = e35gh_i_mw800cb_desc) :
    (ili9488_get_modes ili).clock = 14256 ∧
    (ili9488_get_modes ili).hdisplay = 320 ∧
    (ili9488_get_modes ili).vdisplay = 480 ∧
    (ili9488_get_modes ili).htotal = 440 ∧
    (ili9488_get_modes ili).htotal = 320 + 60 + 20 + 40 ∧
    (ili9488_get_modes ili).hsync_start = (ili9488_get_modes ili).hdisplay + 60 ∧
    (ili9488_get_modes ili).hsync_end = (ili9488_get_modes ili).hsync_start + 20 ∧
    (ili9488_get_modes ili).htotal = (ili9488_get_modes ili).hsync_end + 40 ∧
    (ili9488_get_modes ili).vtotal = 540 ∧
    (ili9488_get_modes ili).vtotal = 480 + 20 + 10 + 30 ∧
    (ili9488_get_modes ili).vsync_start = (ili9488_get_modes ili).vdisplay + 20 ∧
    (ili9488_get_modes ili).vsync_end = (ili9488_get_modes ili).vsync_start + 10 ∧
    (ili9488_get_modes ili).vtotal = (ili9488_get_modes ili).vsync_end + 30 := by
  rw [show ili9488_get_modes ili = ili.desc.display_mode from rfl, h]
  norm_num [e35gh_i_mw800cb_desc, e35gh_i_mw800cb_display_mode]

theorem get_modes_totals_witness :
    iliEx.desc = e35gh_i_mw800cb_desc ∧
    ((ili9488_get_modes iliEx).htotal = 440 ∧
     (ili9488_get_modes iliEx).vtotal = 540) :=
  ⟨rfl, (get_modes_totals iliEx rfl).2.2.2.1, (get_modes_totals iliEx rfl).2.2.2.2.2.2.2.2.1⟩

/-- C10: neither prepare nor unprepare modifies any field of the panel
instance on any execution path: the instance after either call is the
instance before it (transport, reset, power handles, descriptor and
orientation included). -/
theorem lifecycle_frame (ili : Ili9488) (w w2 : World) :
    (ili9488_prepare ili w).2.1 = ili ∧
    (ili9488_unprepare ili w2).2.1 = ili ∧
    (ili9488_prepare ili w).2.1.dsi = ili.dsi ∧
    (ili9488_prepare ili w).2.1.reset = ili.reset ∧
    (ili9488_prepare ili w).2.1.power = ili.power ∧
    (ili9488_prepare ili w).2.1.desc = ili.desc ∧
    (ili9488_prepare ili w).2.1.orientation = ili.orientation ∧
    (ili9488_unprepare ili w2).2.1.dsi = ili.dsi ∧
    (ili9488_unprepare ili w2).2.1.reset = ili.reset ∧
    (ili9488_unprepare ili w2).2.1.power = ili.power ∧
    (ili9488_unprepare ili w2).2.1.desc = ili.desc ∧
    (ili9488_unprepare ili w2).2.1.orientation = ili.orientation := by
  rw [prepare_inst, unprepare_inst]
  exact ⟨rfl, rfl, rfl, rfl, rfl, rfl, rfl, rfl, rfl, rfl, rfl, rfl⟩

/-- C2: for every instance and every outcome of the deactivate batch,
unprepare calls power_off exactly once (exactly one regulator-disable event
is added), discards deactivate's result, and returns power_off's result:
the head of the disable oracle, success or error; the logical state is
Unprepared either way. -/
theorem unprepare_always_powers_off (ili : Ili9488) (w : World) :
    (ili9488_unprepare ili w).1 = headOr0 w.env.disableResults ∧
    countDisables (ili9488_unprepare ili w).2.2.trace = countDisables w.trace + 1 ∧
    stateAfterUnprepare = PanelState.Unprepared := by
  have hde := deactivate_eq ili w
  simp only [ili9488_unprepare, hde, power_off_eq]
  refine ⟨trivial, ?_, rfl⟩
  by_cases h1 : headOr0 w.env.disableResults ≠ 0 <;>
    by_cases h2 : headOr0 w.env.disableResults < 0 <;>
      simp [h1, h2, countDisables, isRegDisable, List.countP_append,
        List.countP_cons, emit]

lemma countDisables_zip (ops : List (Nat × List Nat)) (l : List Int) :
    (zipEvents ops l).countP isRegDisable = 0 :=
  countP_zipEvents_zero _ (fun _ _ _ => rfl) ops l

lemma countSuccEnables_zip (ops : List (Nat × List Nat)) (l : List Int) :
    (zipEvents ops l).countP isSuccEnable = 0 :=
  countP_zipEvents_zero _ (fun _ _ _ => rfl) ops l

lemma countResets_zip (ops : List (Nat × List Nat)) (l : List Int) :
    (zipEvents ops l).countP isResetSet = 0 :=
  countP_zipEvents_zero _ (fun _ _ _ => rfl) ops l

/-- C1: if power_on's supply-enable succeeds but activate returns an error
(the activate batch's first failure, here expressed as the first failing
write result), prepare calls power_off (exactly one regulator-disable event
is added, whatever its own result), returns the activate error, and the
instance remains Unprepared. -/
theorem prepare_rollback_on_activate_error (ili : Ili9488) (w : World)
    (hdesc : ili.desc.init_sequence = some e35gh_i_mw800cb_init)
    (hon : ¬ headOr0 w.env.enableResults < 0)
    (hact : firstFailure (w.env.writeResults.take 16) ≠ 0) :
    (ili9488_prepare ili w).1 = firstFailure (w.env.writeResults.take 16) ∧
    countDisables (ili9488_prepare ili w).2.2.trace = countDisables w.trace + 1 ∧
    stateAfterPrepare (ili9488_prepare ili w).1 = PanelState.Unprepared := by
  have hpo := power_on_ok ili w hon
  simp only [ili9488_prepare, hpo]
  simp only [activate_eq ili, hdesc]
  norm_num [hact]
  rw [power_off_eq]
  constructor
  · by_cases hd : headOr0 w.env.disableResults ≠ 0 <;>
      simp [hd, countDisables, isRegDisable, List.countP_append,
        List.countP_cons, countDisables_zip]
  · simp [stateAfterPrepare, hact]

/-- A world where the first batch write fails with -5 and the power-off
supply disable itself fails with -7. -/
def wActFail : World where
  env := { enableResults := [], disableResults := [-7], writeResults := [-5] }
  trace := []

theorem prepare_rollback_on_activate_error_witness :
    iliEx.desc.init_sequence = some e35gh_i_mw800cb_init ∧
    (¬ headOr0 wActFail.env.enableResults < 0) ∧
    firstFailure (wActFail.env.writeResults.take 16) ≠ 0 ∧
    ((ili9488_prepare iliEx wActFail).1 =
        firstFailure (wActFail.env.writeResults.take 16) ∧
     countDisables (ili9488_prepare iliEx wActFail).2.2.trace =
        countDisables wActFail.trace + 1 ∧
     stateAfterPrepare (ili9488_prepare iliEx wActFail).1 = PanelState.Unprepared) :=
  ⟨rfl, by decide, by decide,
   prepare_rollback_on_activate_error iliEx wActFail rfl (by decide) (by decide)⟩

/-- A descriptor with no init-sequence callback, for the no-callback case. -/
def descNone : IliDesc where
  display_mode := e35gh_i_mw800cb_display_mode
  mode_flags := 0
  format := MIPI_DSI_FMT_RGB666_PACKED
  lanes := 1
  init_sequence := none

/-- A panel instance whose descriptor has no init-sequence callback. -/
def iliNone : Ili9488 where
  dsi := 0
  reset := 1
  power := 2
  desc := descNone
  orientation := 0

/-- C5: activate opens a fresh batch and issues, in order within that single
batch: the model's init-sequence writes when the descriptor supplies an
init-sequence callback (and nothing from it otherwise), then exit-sleep
(0x11), then a 120 ms wait, then display-on (0x29); it returns the batch's
accumulated result, the first failing write result of the batch. -/
theorem activate_batch_order (ili ili0 : Ili9488) (w w0 : World)
    (hdesc : ili.desc.init_sequence = some e35gh_i_mw800cb_init)
    (hnone : ili0.desc.init_sequence = none) :
    ((ili9488_activate ili w).2.trace.filterMap opProj =
      w.trace.filterMap opProj ++
        (e35ghInitOps.map (fun op => BatchOp.write op.1 op.2) ++
         [BatchOp.write 0x11 [], BatchOp.sleep 120, BatchOp.write 0x29 []]) ∧
     (ili9488_activate ili w).1 = firstFailure (w.env.writeResults.take 16)) ∧
    ((ili9488_activate ili0 w0).2.trace.filterMap opProj =
      w0.trace.filterMap opProj ++
        [BatchOp.write 0x11 [], BatchOp.sleep 120, BatchOp.write 0x29 []] ∧
     (ili9488_activate ili0 w0).1 = firstFailure (w0.env.writeResults.take 2)) := by
  rw [activate_eq ili w hdesc, activate_none_eq ili0 w0 hnone]
  refine ⟨⟨?_, rfl⟩, ⟨?_, rfl⟩⟩
  · simp [List.filterMap_append, filterMap_zipEvents, opProj]
  · simp [List.filterMap_append, opProj]

theorem activate_batch_order_witness :
    iliEx.desc.init_sequence = some e35gh_i_mw800cb_init ∧
    iliNone.desc.init_sequence = none ∧
    (((ili9488_activate iliEx wEx).2.trace.filterMap opProj =
        wEx.trace.filterMap opProj ++
          (e35ghInitOps.map (fun op => BatchOp.write op.1 op.2) ++
           [BatchOp.write 0x11 [], BatchOp.sleep 120, BatchOp.write 0x29 []]) ∧
      (ili9488_activate iliEx wEx).1 = firstFailure (wEx.env.writeResults.take 16)) ∧
     ((ili9488_activate iliNone wEx).2.trace.filterMap opProj =
        wEx.trace.filterMap opProj ++
          [BatchOp.write 0x11 [], BatchOp.sleep 120, BatchOp.write 0x29 []] ∧
      (ili9488_activate iliNone wEx).1 = firstFailure (wEx.env.writeResults.take 2))) :=
  ⟨rfl, rfl, activate_batch_order iliEx iliNone wEx wEx rfl rfl⟩

/-- C6: once a write in a batch records an error, subsequent writes are
still issued and the batch's result is the first recorded failure: a write
on a context already holding an error is still emitted to the transport and
leaves the sticky error unchanged; the activate batch always issues all 16
of its writes and the deactivate batch both of its writes whatever the
environment's outcomes, and each batch's final result equals the first
failing write result. -/
theorem batch_sticky_first_error (ili : Ili9488) (ctx : MultiContext)
    (c : Nat) (ps : List Nat) (w wa wd : World)
    (hdesc : ili.desc.init_sequence = some e35gh_i_mw800cb_init)
    (herr : ctx.accum_err ≠ 0) :
    (mipi_dsi_dcs_write_seq_multi ctx c ps w).2.trace =
      w.trace ++ [Event.dcsWrite c ps (headOr0 w.env.writeResults)] ∧
    (mipi_dsi_dcs_write_seq_multi ctx c ps w).1.accum_err = ctx.accum_err ∧
    countWrites (ili9488_activate ili wa).2.trace = countWrites wa.trace + 16 ∧
    (ili9488_activate ili wa).1 = firstFailure (wa.env.writeResults.take 16) ∧
    countWrites (ili9488_deactivate ili wd).2.trace = countWrites wd.trace + 2 ∧
    (ili9488_deactivate ili wd).1 = firstFailure (wd.env.writeResults.take 2) := by
  refine ⟨?_, ?_, ?_, ?_, ?_, ?_⟩
  · simp [mipi_dsi_dcs_write_seq_multi, emit]
  · simp [mipi_dsi_dcs_write_seq_multi, herr]
  · rw [activate_eq ili wa hdesc]
    simp [countWrites, isDcsWrite, List.countP_append, List.countP_cons,
      countP_zipEvents_write, e35ghInitOps]
  · rw [activate_eq ili wa hdesc]
  · rw [deactivate_eq]
    simp [countWrites, isDcsWrite, List.countP_append, List.countP_cons]
  · rw [deactivate_eq]

/-- A context that already holds the sticky error -19. -/
def ctxErr : MultiContext where
  dsi := 0
  accum_err := -19

theorem batch_sticky_first_error_witness :
    iliEx.desc.init_sequence = some e35gh_i_mw800cb_init ∧
    ctxErr.accum_err ≠ 0 ∧
    ((mipi_dsi_dcs_write_seq_multi ctxErr 0x29 [] wEx).2.trace =
       wEx.trace ++ [Event.dcsWrite 0x29 [] (headOr0 wEx.env.writeResults)] ∧
     (mipi_dsi_dcs_write_seq_multi ctxErr 0x29 [] wEx).1.accum_err = ctxErr.accum_err ∧
     countWrites (ili9488_activate iliEx wEx).2.trace = countWrites wEx.trace + 16 ∧
     (ili9488_activate iliEx wEx).1 = firstFailure (wEx.env.writeResults.take 16) ∧
     countWrites (ili9488_deactivate iliEx wEx).2.trace = countWrites wEx.trace + 2 ∧
     (ili9488_deactivate iliEx wEx).1 = firstFailure (wEx.env.writeResults.take 2)) :=
  ⟨rfl, by decide,
   batch_sticky_first_error iliEx ctxErr 0x29 [] wEx wEx wEx rfl (by decide)⟩

/-- C7: starting from a fresh trace, a successful prepare followed by
unprepare leaves the logical state Unprepared, and on every execution path
each completed power_on (a regulator-enable that succeeded) is matched by
exactly one power_off (regulator-disable): after a successful prepare plus
unprepare, and equally on prepare's own failure paths, the successful
enable count equals the disable count. -/
theorem prepare_unprepare_balanced (ili : Ili9488) (w : World)
    (hdesc : ili.desc.init_sequence = some e35gh_i_mw800cb_init)
    (hw : w.trace = []) :
    stateAfterUnprepare = PanelState.Unprepared ∧
    ((ili9488_prepare ili w).1 = 0 →
      countSuccEnables (ili9488_unprepare (ili9488_prepare ili w).2.1
          (ili9488_prepare ili w).2.2).2.2.trace =
        countDisables (ili9488_unprepare (ili9488_prepare ili w).2.1
          (ili9488_prepare ili w).2.2).2.2.trace) ∧
    ((ili9488_prepare ili w).1 ≠ 0 →
      countSuccEnables (ili9488_prepare ili w).2.2.trace =
        countDisables (ili9488_prepare ili w).2.2.trace) := by
  refine ⟨rfl, ?_, ?_⟩
  · -- successful prepare, then unprepare: one matched enable/disable pair
    intro hsucc
    by_cases hon : headOr0 w.env.enableResults < 0
    · have hne : headOr0 w.env.enableResults ≠ 0 := by omega
      rw [show (ili9488_prepare ili w).1 = headOr0 w.env.enableResults by
        simp only [ili9488_prepare, power_on_fail ili w hon]; norm_num [hne]] at hsucc
      exact absurd hsucc hne
    · by_cases hact : firstFailure (w.env.writeResults.take 16) ≠ 0
      · rw [show (ili9488_prepare ili w).1 = firstFailure (w.env.writeResults.take 16) by
          simp only [ili9488_prepare, power_on_ok ili w hon, activate_eq ili, hdesc]
          norm_num [hact]] at hsucc
        exact absurd hsucc hact
      · push_neg at hact
        simp only [ili9488_prepare, power_on_ok ili w hon, activate_eq ili, hdesc]
        norm_num [hact]
        simp only [ili9488_unprepare, deactivate_eq, power_off_eq]
        by_cases hd1 : headOr0 w.env.disableResults ≠ 0 <;>
          by_cases hd2 : headOr0 w.env.disableResults < 0 <;>
            simp [hd1, hd2, hw, hon, countSuccEnables, countDisables,
              isSuccEnable, isRegDisable, List.countP_append, List.countP_cons,
              countSuccEnables_zip, countDisables_zip, emit]
  · -- failed prepare: either no enable completed, or rollback disabled
    intro hfail
    by_cases hon : headOr0 w.env.enableResults < 0
    · simp only [ili9488_prepare, power_on_fail ili w hon]
      have hne : headOr0 w.env.enableResults ≠ 0 := by omega
      norm_num [hne]
      simp [hw, hon, countSuccEnables, countDisables, isSuccEnable,
        isRegDisable, List.countP_append, List.countP_cons]
    · by_cases hact : firstFailure (w.env.writeResults.take 16) ≠ 0
      · simp only [ili9488_prepare, power_on_ok ili w hon, activate_eq ili, hdesc]
        norm_num [hact]
        rw [power_off_eq]
        by_cases hd1 : headOr0 w.env.disableResults ≠ 0 <;>
          simp [hd1, hw, hon, countSuccEnables, countDisables, isSuccEnable,
            isRegDisable, List.countP_append, List.countP_cons,
            countSuccEnables_zip, countDisables_zip, emit]
      · exfalso
        apply hfail
        push_neg at hact
        simp only [ili9488_prepare, power_on_ok ili w hon, activate_eq ili, hdesc]
        norm_num [hact]

theorem prepare_unprepare_balanced_witness :
    iliEx.desc.init_sequence = some e35gh_i_mw800cb_init ∧
    wEx.trace = [] ∧
    (stateAfterUnprepare = PanelState.Unprepared ∧
     ((ili9488_prepare iliEx wEx).1 = 0 →
       countSuccEnables (ili9488_unprepare (ili9488_prepare iliEx wEx).2.1
           (ili9488_prepare iliEx wEx).2.2).2.2.trace =
         countDisables (ili9488_unprepare (ili9488_prepare iliEx wEx).2.1
           (ili9488_prepare iliEx wEx).2.2).2.2.trace) ∧
     ((ili9488_prepare iliEx wEx).1 ≠ 0 →
       countSuccEnables (ili9488_prepare iliEx wEx).2.2.trace =
         countDisables (ili9488_prepare iliEx wEx).2.2.trace)) :=
  ⟨rfl, rfl, prepare_unprepare_balanced iliEx wEx rfl rfl⟩
